import Mathlib

/-!
Shallow embedding of the chilli plant-monitoring repository
(sensors.py, logger.py, relays.py, process_manager.py, database.py,
webserver.py) and proofs about it.

Real numbers of the Python source (floats used for voltages, percentages
and timestamps) are modelled as rationals; Python `round(x, 3)` uses
round-half-to-even, embedded exactly below.
-/

namespace Chilli

/-- Python `round` ties to even (banker's rounding): round a rational to the
nearest integer, half going to the even neighbour. -/
def roundHalfEven (q : ℚ) : ℤ :=
  if q - ⌊q⌋ < 1/2 then ⌊q⌋
  else if 1/2 < q - ⌊q⌋ then ⌊q⌋ + 1
  else if ⌊q⌋ % 2 = 0 then ⌊q⌋ else ⌊q⌋ + 1

/-- Python `round(x, 3)`: round to 3 decimal places, ties to even. -/
def round3 (q : ℚ) : ℚ :=
  (roundHalfEven (q * 1000) : ℚ) / 1000

/-- Rounding to 2 decimal places (ties to even, like Python `round(x, 2)`).
Modelled from the spec: the spec's persistence-rounding sentence prescribes
2 decimals for temperatures and humidity; no code under src/ rounds to 2
decimals, so this definition exists only to compare the spec's words with
what logger.py actually does. -/
def round2_spec (q : ℚ) : ℚ :=
  (roundHalfEven (q * 100) : ℚ) / 100

/-- States the calibration file can be in, as seen by
`load_voltage_calibration` (sensors.py lines 207-235).  A `parsed` file
carries, for each of the keys `dry_v` and `wet_v`: `none` when the key is
absent, `some none` when the key is present but `float()` on its value
raises (wrong type), and `some (some x)` when it converts to the number
`x`.  `legacy` records whether the old `dry`/`wet` raw-format keys are
present (they only trigger a warning). -/
inductive CalibFile where
  | missing
  | unparsable
  | parsed (dry_v wet_v : Option (Option ℚ)) (legacy : Bool)

/-- Embedding of `load_voltage_calibration` (sensors.py lines 207-235):
returns the `(dry_v, wet_v)` pair, falling back to the defaults
`(1.60, 0.20)` when the file is missing, fails to parse, lacks one of the
keys, or `float()` raises on a value (the `ValueError`/`TypeError` is
caught by the enclosing `except`). -/
def load_voltage_calibration (file : CalibFile) : ℚ × ℚ :=
  match file with
  | .missing => (8/5, 1/5)
  | .unparsable => (8/5, 1/5)
  | .parsed dry_v wet_v _ =>
    match dry_v, wet_v with
    | some (some x), some (some y) => (x, y)
    | _, _ => (8/5, 1/5)

/-- Embedding of `convert_voltage_to_soil_percentage` (sensors.py lines
72-116).  The source reads the calibration via `load_voltage_calibration()`;
here the loaded pair is passed as `calibration`.  The pair is swapped when
`dry_v < wet_v`; a non-positive span or a `None` voltage yields `0.0`;
otherwise the inverted-scale percentage is computed, clamped to `[0, 100]`
and rounded to 3 decimals. -/
def convert_voltage_to_soil_percentage (calibration : ℚ × ℚ) (voltage : Option ℚ) : ℚ :=
  let dry_voltage := if calibration.1 < calibration.2 then calibration.2 else calibration.1
  let wet_voltage := if calibration.1 < calibration.2 then calibration.1 else calibration.2
  let voltage_range := dry_voltage - wet_voltage
  if voltage_range ≤ 0 then 0
  else
    match voltage with
    | none => 0
    | some v =>
      let percent :=
        if v ≥ dry_voltage then 0
        else if v ≤ wet_voltage then 100
        else (dry_voltage - v) * 100 / voltage_range
      round3 (max 0 (min 100 percent))

/-- States the last-watering guard file can be in, as seen by
`should_initiate_watering` (logger.py lines 50-67): absent, present but
unreadable or not parsing as a float (`IOError`/`ValueError`, both
ignored), or holding a valid timestamp. -/
inductive GuardFile where
  | absent
  | corrupt
  | valid (ts : ℚ)

/-- Embedding of `should_initiate_watering` (logger.py lines 50-67) with
`WATERING_THRESHOLD_PERCENT = 40.0` and `WATERING_COOLDOWN_SECONDS = 3600`.
`now` stands for `time.time()`. -/
def should_initiate_watering (soil_moisture_percent : Option ℚ)
    (guard : GuardFile) (now : ℚ) : Bool :=
  match soil_moisture_percent with
  | none => false
  | some m =>
    if m ≥ 40 then false
    else
      match guard with
      | .absent => true
      | .corrupt => true
      | .valid last_timestamp =>
        if now - last_timestamp < 3600 then false else true

/-- Observable actions of a watering cycle: the pump relay transitions made
through `set_relay_state` and the persisting of the last-watering
timestamp file. -/
inductive WaterAction where
  | relayOn
  | relayOff
  | persistTimestamp
deriving DecidableEq, Repr

/-- Outcome of one run of `perform_watering_cycle`: the final energized
state of the pump relay, the ordered list of observable actions performed,
and whether the call propagated an exception to its caller. -/
structure WateringOutcome where
  pumpEnergized : Bool
  actions : List WaterAction
  raised : Bool
deriving DecidableEq, Repr

/-- Embedding of `perform_watering_cycle` (logger.py lines 69-80).  The
statements run in order with no `try`/`finally` around the sleep:
`set_relay_state(RELAY1_PIN, True)`, `time.sleep(...)`,
`set_relay_state(RELAY1_PIN, False)`, then a `try` block writing the
last-watering timestamp whose `IOError` is caught and logged.
`sleepRaises` holds when the sleep step raises (the fault the spec's
guaranteed-shutoff clause is about); `writeFails` holds when writing the
timestamp file raises `IOError`.  When the sleep raises, the exception
propagates immediately and none of the later statements run. -/
def perform_watering_cycle (sleepRaises writeFails : Bool) : WateringOutcome :=
  if sleepRaises then
    { pumpEnergized := true, actions := [.relayOn], raised := true }
  else
    { pumpEnergized := false
      actions := [.relayOn, .relayOff] ++ if writeFails then [] else [.persistTimestamp]
      raised := false }

/-- Embedding of the soil-percent computation inside one iteration of
`run_logging_cycle` (logger.py lines 107-117): the voltage from
`read_soil_moisture_raw` (which is `none` when the read failed) is passed
to `convert_voltage_to_soil_percentage`, and the result — a float, never
`None` — is rounded via `round(soil_percent, 3) if soil_percent is not
None else None`.  This value is what `should_initiate_watering` receives. -/
def run_logging_cycle_soil_percent (file : CalibFile) (soil_voltage : Option ℚ) : Option ℚ :=
  let soil_percent := convert_voltage_to_soil_percentage (load_voltage_calibration file) soil_voltage
  some (round3 soil_percent)

/-- Embedding of the per-field rounding applied by `run_logging_cycle`
before persisting a row (logger.py lines 112-117).  Each field holds
`none` when that sensor read failed this cycle. -/
structure SensorValues where
  temperature : Option ℚ
  humidity : Option ℚ
  soil_temperature : Option ℚ
  soil_voltage : Option ℚ
  soil_percent : Option ℚ
deriving DecidableEq, Repr

/-- Embedding of logger.py lines 113-117: every present field is rounded
with `round(x, 3)`; an absent (`None`) field stays `None`. -/
def round_sensor_values (v : SensorValues) : SensorValues :=
  { humidity := v.humidity.map round3
    temperature := v.temperature.map round3
    soil_temperature := v.soil_temperature.map round3
    soil_voltage := v.soil_voltage.map round3
    soil_percent := v.soil_percent.map round3 }

/-- Relation stating that `y` is `x` rounded to 3 decimal places: an absent
value stays absent, and a present value becomes a multiple of `1/1000`
within half a grid step (`1/2000`) of the original. -/
def IsRound3 (y x : Option ℚ) : Prop :=
  (x = none → y = none) ∧
    ∀ q, x = some q → ∃ n : ℤ, y = some ((n : ℚ) / 1000) ∧ |(n : ℚ) / 1000 - q| ≤ 1/2000

/-- Embedding of the SQL string built by the `/api/logs/all` route
`api_logs_all` (webserver.py lines 177-194): the caller-supplied `where`
query parameter is appended verbatim after `WHERE` whenever it is
non-empty (Python truthiness of the string), then the ORDER BY clause. -/
def api_logs_all_query (where_clause : String) : String :=
  let query := "SELECT id, timestamp, dht22_air_temp as air_temp, dht22_humidity as air_humidity, ds18b20_soil_temp as soil_temp, soil_percent, lux, stable FROM logs"
  let query := if where_clause = "" then query else query ++ " WHERE " ++ where_clause
  query ++ " ORDER BY id ASC"

/-- Embedding of the SQL string built by `get_logs_where` (database.py
lines 145-171): the given `where_clause` is appended verbatim after
`WHERE` whenever non-empty; only the `params` list is bound through `?`
placeholders. -/
def get_logs_where_query (where_clause : String) : String :=
  let query := "SELECT * FROM logs"
  let query := if where_clause = "" then query else query ++ " WHERE " ++ where_clause
  query ++ " ORDER BY id ASC"

/-- A spawned subprocess as the supervisor observes it: its PID and
whether `poll()` still returns `None` (the process is alive) at the
moment the supervisor inspects it. -/
structure SubProc where
  pid : Nat
  alive : Bool
deriving DecidableEq, Repr

/-- Embedding of `ProcessManager.is_running` (process_manager.py lines
19-23): true when a process handle is held and `poll()` returns `None`;
otherwise the stale handle is cleared and the result is false.  Returns
the result together with the updated `self._proc`. -/
def ProcessManager.is_running : Option SubProc → Bool × Option SubProc
  | some p => if p.alive then (true, some p) else (false, none)
  | none => (false, none)

/-- Result of the `subprocess.Popen` call in `ProcessManager.start`:
either it raises, or it yields a process whose `alive` field records
whether the process is still running when `is_running` re-checks it after
the 0.5 s grace sleep. -/
inductive SpawnResult where
  | err (msg : String)
  | ok (p : SubProc)

/-- Embedding of `ProcessManager.start` (process_manager.py lines 25-49),
run under `self._lock`: reject when already running; on `Popen` failure
return the error; otherwise store the handle, sleep the grace interval,
and re-check liveness — returning success only when the process is still
alive, and "Process did not stay running." when it already exited. -/
def ProcessManager.start (s : Option SubProc) (spawn : SpawnResult) :
    (Bool × String) × Option SubProc :=
  let chk := ProcessManager.is_running s
  if chk.1 then ((false, "Process already running."), chk.2)
  else
    match spawn with
    | .err e => ((false, "Failed to start process: " ++ e), chk.2)
    | .ok proc =>
      let chk2 := ProcessManager.is_running (some proc)
      if chk2.1 then ((true, "Started (PID: " ++ toString proc.pid ++ ")."), chk2.2)
      else ((false, "Process did not stay running."), chk2.2)

/-- Embedding of `ProcessManager.stop` (process_manager.py lines 51-64),
run under `self._lock`: when nothing is running it returns
`(False, "Process not running.")` — no code path raises; otherwise it
terminates (or, on timeout, kills) the process, clears the handle and
reports success. -/
def ProcessManager.stop (s : Option SubProc) : (Bool × String) × Option SubProc :=
  match ProcessManager.is_running s with
  | (true, some p) => ((true, "Stopped (PID: " ++ toString p.pid ++ ")."), none)
  | _ => ((false, "Process not running."), none)

theorem roundHalfEven_bounds (q : ℚ) :
    ⌊q⌋ ≤ roundHalfEven q ∧ roundHalfEven q ≤ ⌊q⌋ + 1 := by
  unfold roundHalfEven
  split_ifs <;> omega

theorem roundHalfEven_mono {a b : ℚ} (h : a ≤ b) :
    roundHalfEven a ≤ roundHalfEven b := by
  have hf : ⌊a⌋ ≤ ⌊b⌋ := Int.floor_le_floor h
  rcases lt_or_eq_of_le hf with hlt | heq
  · have h1 := (roundHalfEven_bounds a).2
    have h2 := (roundHalfEven_bounds b).1
    omega
  · unfold roundHalfEven
    rw [← heq]
    split_ifs <;> first | omega | linarith

theorem roundHalfEven_intCast (n : ℤ) : roundHalfEven (n : ℚ) = n := by
  unfold roundHalfEven
  rw [Int.floor_intCast]
  norm_num

theorem abs_roundHalfEven_sub_le (q : ℚ) :
    |(roundHalfEven q : ℚ) - q| ≤ 1/2 := by
  have h1 := Int.floor_le q
  have h2 := Int.lt_floor_add_one q
  unfold roundHalfEven
  split_ifs with hc1 hc2 hc3 <;> rw [abs_le] <;> constructor <;> push_cast <;> linarith

theorem round3_mono {a b : ℚ} (h : a ≤ b) : round3 a ≤ round3 b := by
  unfold round3
  have hm := roundHalfEven_mono (mul_le_mul_of_nonneg_right h (by norm_num : (0:ℚ) ≤ 1000))
  have hc : ((roundHalfEven (a * 1000) : ℤ) : ℚ) ≤ ((roundHalfEven (b * 1000) : ℤ) : ℚ) :=
    Int.cast_le.mpr hm
  linarith

theorem round3_grid (n : ℤ) : round3 ((n : ℚ) / 1000) = (n : ℚ) / 1000 := by
  unfold round3
  rw [div_mul_cancel₀ _ (by norm_num : (1000:ℚ) ≠ 0), roundHalfEven_intCast]

theorem round3_zero : round3 0 = 0 := by
  have h := round3_grid 0
  norm_num at h
  exact h

theorem round3_hundred : round3 100 = 100 := by
  have h := round3_grid 100000
  norm_num at h
  exact h

theorem round3_fifty : round3 50 = 50 := by
  have h := round3_grid 50000
  norm_num at h
  exact h

theorem abs_round3_sub_le (q : ℚ) : |round3 q - q| ≤ 1/2000 := by
  have h := abs_roundHalfEven_sub_le (q * 1000)
  have heq : round3 q - q = ((roundHalfEven (q * 1000) : ℚ) - q * 1000) / 1000 := by
    unfold round3
    ring
  rw [heq, abs_div]
  rw [show |(1000:ℚ)| = 1000 by norm_num]
  linarith

theorem convert_some_closed (dry wet v : ℚ) (h : wet < dry) :
    convert_voltage_to_soil_percentage (dry, wet) (some v) =
      round3 (max 0 (min 100
        (if v ≥ dry then 0 else if v ≤ wet then 100
         else (dry - v) * 100 / (dry - wet)))) := by
  simp only [convert_voltage_to_soil_percentage]
  rw [if_neg (not_lt.mpr h.le), if_neg (not_lt.mpr h.le),
    if_neg (by linarith : ¬(dry - wet ≤ 0))]

theorem convert_none (cal : ℚ × ℚ) : convert_voltage_to_soil_percentage cal none = 0 := by
  simp only [convert_voltage_to_soil_percentage]
  split <;> split <;> rfl

theorem convert_normalizes (d w : ℚ) (v : Option ℚ) :
    convert_voltage_to_soil_percentage (d, w) v =
      convert_voltage_to_soil_percentage (max d w, min d w) v := by
  rcases le_or_lt w d with hle | hlt
  · rw [max_eq_left hle, min_eq_right hle]
  · rw [max_eq_right hlt.le, min_eq_left hlt.le]
    simp only [convert_voltage_to_soil_percentage]
    rw [if_pos hlt, if_pos hlt, if_neg (not_lt.mpr hlt.le), if_neg (not_lt.mpr hlt.le)]

theorem convert_degenerate (d u : ℚ) :
    convert_voltage_to_soil_percentage (d, d) (some u) = 0 := by
  simp [convert_voltage_to_soil_percentage]

theorem round3_mem_Icc {q : ℚ} (h0 : 0 ≤ q) (h1 : q ≤ 100) :
    0 ≤ round3 q ∧ round3 q ≤ 100 := by
  constructor
  · have h := round3_mono h0
    rw [round3_zero] at h
    exact h
  · have h := round3_mono h1
    rw [round3_hundred] at h
    exact h

theorem convert_bounds (cal : ℚ × ℚ) (v : Option ℚ) :
    0 ≤ convert_voltage_to_soil_percentage cal v ∧
      convert_voltage_to_soil_percentage cal v ≤ 100 := by
  rcases v with _ | u
  · rw [convert_none]
    norm_num
  · obtain ⟨d, w⟩ := cal
    rw [convert_normalizes d w (some u)]
    rcases lt_or_eq_of_le (min_le_max (a := d) (b := w)) with hlt | heq
    · rw [convert_some_closed _ _ u hlt]
      exact round3_mem_Icc (le_max_left 0 _) (max_le (by norm_num) (min_le_left _ _))
    · rw [← heq, convert_degenerate]
      norm_num

theorem convert_antitone (dry wet v1 v2 : ℚ) (h : wet < dry) (h2 : v1 ≤ v2) :
    convert_voltage_to_soil_percentage (dry, wet) (some v2) ≤
      convert_voltage_to_soil_percentage (dry, wet) (some v1) := by
  rw [convert_some_closed dry wet v2 h, convert_some_closed dry wet v1 h]
  apply round3_mono
  apply max_le_max le_rfl
  apply min_le_min le_rfl
  have hr : (0:ℚ) < dry - wet := by linarith
  split_ifs <;>
    first
      | linarith
      | (apply div_nonneg <;> linarith)
      | (rw [div_le_iff₀ hr]; linarith)
      | (rw [div_le_div_iff₀ hr hr]; nlinarith)

theorem convert_dry_endpoint (dry wet : ℚ) (h : wet < dry) :
    convert_voltage_to_soil_percentage (dry, wet) (some dry) = 0 := by
  rw [convert_some_closed dry wet dry h, if_pos (le_refl dry)]
  have hmin : min (100:ℚ) 0 = 0 := min_eq_right (by norm_num)
  rw [hmin, max_self, round3_zero]

theorem convert_wet_endpoint (dry wet : ℚ) (h : wet < dry) :
    convert_voltage_to_soil_percentage (dry, wet) (some wet) = 100 := by
  rw [convert_some_closed dry wet wet h, if_neg (not_le.mpr h), if_pos (le_refl wet)]
  have hmax : max (0:ℚ) 100 = 100 := max_eq_right (by norm_num)
  rw [min_self, hmax, round3_hundred]

theorem convert_midpoint :
    convert_voltage_to_soil_percentage (8/5, 1/5) (some (9/10)) = 50 := by
  rw [convert_some_closed (8/5) (1/5) (9/10) (by norm_num)]
  norm_num [min_def, max_def, round3_fifty]

theorem isRound3_map (x : Option ℚ) : IsRound3 (x.map round3) x := by
  constructor
  · intro h
    subst h
    rfl
  · intro q hq
    subst hq
    exact ⟨roundHalfEven (q * 1000), rfl, abs_round3_sub_le q⟩

/-- C1: evaluation of `perform_watering_cycle` at the fault the claim is
about.  When the sleep step raises, the cycle ends with the pump still
energized and only the ON transition performed — there is no
`try`/`finally`, so shutoff does NOT happen on that exit path, refuting
the claim's guaranteed-shutoff and one-ON-one-OFF parts; on the
fault-free path the pump ends de-energized with exactly one ON and one
OFF transition and the timestamp persisted only after the OFF. -/
theorem perform_watering_cycle_sleep_fault :
    (perform_watering_cycle true false).pumpEnergized = true ∧
    (perform_watering_cycle true false).actions = [.relayOn] ∧
    (perform_watering_cycle true false).raised = true ∧
    (perform_watering_cycle false false).pumpEnergized = false ∧
    (perform_watering_cycle false false).actions = [.relayOn, .relayOff, .persistTimestamp] :=
  ⟨rfl, rfl, rfl, rfl, rfl⟩

/-- C2: the watering eligibility check with threshold 40: an absent
moisture reading is never eligible; 39.9 with no guard file is eligible;
40.0 is not (boundary on the no-water side); moisture 30 with last
watering 500 s ago (cooldown 3600 s) is not eligible, with 3700 s ago it
is; a corrupt or unreadable guard file behaves exactly like an absent one
and never blocks watering. -/
theorem should_initiate_watering_cases :
    (∀ g now, should_initiate_watering none g now = false) ∧
    should_initiate_watering (some (399/10)) .absent 1000 = true ∧
    should_initiate_watering (some 40) .absent 1000 = false ∧
    (∀ now : ℚ, should_initiate_watering (some 30) (.valid (now - 500)) now = false) ∧
    (∀ now : ℚ, should_initiate_watering (some 30) (.valid (now - 3700)) now = true) ∧
    (∀ m now, should_initiate_watering (some m) .corrupt now =
        should_initiate_watering (some m) .absent now) := by
  refine ⟨fun g now => rfl, ?_, ?_, fun now => ?_, fun now => ?_, fun m now => rfl⟩
  · norm_num [should_initiate_watering]
  · norm_num [should_initiate_watering]
  · simp only [should_initiate_watering]
    norm_num
  · simp only [should_initiate_watering]
    norm_num

/-- C3: the soil-moisture percentage handed to the eligibility check by
`run_logging_cycle` is never `None`: the conversion maps a failed voltage
read (`None`) to `0.0` (for any calibration with positive normalized
span), the rounded value passed on is always present — so the `None`
branch of `should_initiate_watering` is unreachable from the loop — and
with a failed sensor and no prior-watering file the loop is eligible to
water. -/
theorem run_logging_cycle_failed_sensor_waters :
    (∀ cal : ℚ × ℚ, 0 < max cal.1 cal.2 - min cal.1 cal.2 →
        convert_voltage_to_soil_percentage cal none = 0) ∧
    (∀ file v, (run_logging_cycle_soil_percent file v).isSome = true) ∧
    (∀ file now,
        should_initiate_watering (run_logging_cycle_soil_percent file none) .absent now
          = true) := by
  refine ⟨fun cal _ => convert_none cal, fun file v => rfl, fun file now => ?_⟩
  show should_initiate_watering
    (some (round3 (convert_voltage_to_soil_percentage (load_voltage_calibration file) none)))
    .absent now = true
  rw [convert_none, round3_zero]
  norm_num [should_initiate_watering]

/-- C3 witness: the general statement applied to the default calibration
pair and a failed voltage read. -/
theorem run_logging_cycle_failed_sensor_waters_witness :
    convert_voltage_to_soil_percentage (8/5, 1/5) none = 0 ∧
    should_initiate_watering (run_logging_cycle_soil_percent .missing none) .absent 0 = true :=
  ⟨run_logging_cycle_failed_sensor_waters.1 (8/5, 1/5) (by norm_num [max_def, min_def]),
   run_logging_cycle_failed_sensor_waters.2.2 .missing 0⟩

/-- C4: on a normalized calibration `wet < dry`, the conversion is
monotonically non-increasing in the voltage, maps the dry endpoint to 0
and the wet endpoint to 100, and for the calibration `(1.60, 0.20)` at
the midpoint `0.90` the result is within 5 of 50. -/
theorem convert_voltage_monotone_endpoints_midpoint :
    (∀ dry wet v1 v2 : ℚ, wet < dry → wet ≤ v1 → v1 ≤ v2 → v2 ≤ dry →
        convert_voltage_to_soil_percentage (dry, wet) (some v2) ≤
          convert_voltage_to_soil_percentage (dry, wet) (some v1)) ∧
    (∀ dry wet : ℚ, wet < dry →
        convert_voltage_to_soil_percentage (dry, wet) (some dry) = 0 ∧
          convert_voltage_to_soil_percentage (dry, wet) (some wet) = 100) ∧
    |convert_voltage_to_soil_percentage (8/5, 1/5) (some (9/10)) - 50| ≤ 5 := by
  refine ⟨fun dry wet v1 v2 h _ h2 _ => convert_antitone dry wet v1 v2 h h2,
    fun dry wet h => ⟨convert_dry_endpoint dry wet h, convert_wet_endpoint dry wet h⟩, ?_⟩
  rw [convert_midpoint]
  norm_num

/-- C4 witness: the monotonicity and endpoint statements applied to the
default calibration pair at concrete voltages. -/
theorem convert_voltage_monotone_endpoints_midpoint_witness :
    convert_voltage_to_soil_percentage (8/5, 1/5) (some 1) ≤
      convert_voltage_to_soil_percentage (8/5, 1/5) (some (1/2)) ∧
    convert_voltage_to_soil_percentage (8/5, 1/5) (some (8/5)) = 0 ∧
    convert_voltage_to_soil_percentage (8/5, 1/5) (some (1/5)) = 100 :=
  ⟨convert_voltage_monotone_endpoints_midpoint.1 (8/5) (1/5) (1/2) 1 (by norm_num) (by norm_num)
      (by norm_num) (by norm_num),
   (convert_voltage_monotone_endpoints_midpoint.2.1 (8/5) (1/5) (by norm_num)).1,
   (convert_voltage_monotone_endpoints_midpoint.2.1 (8/5) (1/5) (by norm_num)).2⟩

/-- C5: the conversion is a total function of its inputs (the embedding
returns a value on every input, so no division fault can surface); an
inverted pair gives the same result as the swapped (normalized) pair; a
degenerate normalized span yields 0 for every voltage; a `None` voltage
yields 0; and every result lies in `[0, 100]`. -/
theorem convert_voltage_total_safety :
    (∀ d w : ℚ, ∀ v, convert_voltage_to_soil_percentage (d, w) v =
        convert_voltage_to_soil_percentage (max d w, min d w) v) ∧
    (∀ d w : ℚ, max d w - min d w ≤ 0 →
        ∀ u, convert_voltage_to_soil_percentage (d, w) (some u) = 0) ∧
    (∀ cal, convert_voltage_to_soil_percentage cal none = 0) ∧
    (∀ cal v, 0 ≤ convert_voltage_to_soil_percentage cal v ∧
        convert_voltage_to_soil_percentage cal v ≤ 100) := by
  refine ⟨convert_normalizes, ?_, convert_none, convert_bounds⟩
  intro d w hspan u
  have h1 : max d w ≤ min d w := by linarith
  have hd : d ≤ w := le_trans (le_trans (le_max_left d w) h1) (min_le_right d w)
  have hw : w ≤ d := le_trans (le_trans (le_max_right d w) h1) (min_le_left d w)
  have hdw : d = w := le_antisymm hd hw
  subst hdw
  exact convert_degenerate d u

/-- C5 witness: the degenerate-span statement applied to the equal pair
`(1, 1)` at voltage 5. -/
theorem convert_voltage_total_safety_witness :
    convert_voltage_to_soil_percentage (1, 1) (some 5) = 0 :=
  convert_voltage_total_safety.2.1 1 1 (by norm_num) 5

/-- C6 counterexample: the `/api/logs/all` route concatenates the
caller-supplied filter string verbatim into the executed SQL — here an
injection payload ends up inside the statement unmodified, so no
column-plus-operator allow-list restricts the filter. -/
theorem api_logs_all_injection_counterexample :
    api_logs_all_query "1=1; DROP TABLE logs" =
      "SELECT id, timestamp, dht22_air_temp as air_temp, dht22_humidity as air_humidity, ds18b20_soil_temp as soil_temp, soil_percent, lux, stable FROM logs WHERE 1=1; DROP TABLE logs ORDER BY id ASC" := by
  rfl

/-- C6 amended: every non-empty caller-supplied filter string is passed
through raw — both the `/api/logs/all` route and `get_logs_where` build
the executed SQL by splicing the clause verbatim between the fixed
SELECT part and the ORDER BY part, with no allow-list check. -/
theorem api_logs_all_raw_passthrough (w : String) (h : ¬(w = "")) :
    api_logs_all_query w =
      "SELECT id, timestamp, dht22_air_temp as air_temp, dht22_humidity as air_humidity, ds18b20_soil_temp as soil_temp, soil_percent, lux, stable FROM logs" ++ " WHERE " ++ w ++ " ORDER BY id ASC" ∧
    get_logs_where_query w = "SELECT * FROM logs" ++ " WHERE " ++ w ++ " ORDER BY id ASC" := by
  simp only [api_logs_all_query, get_logs_where_query]
  rw [if_neg h, if_neg h]
  exact ⟨rfl, rfl⟩

/-- C6 amended witness: the passthrough statement applied to a concrete
filter string. -/
theorem api_logs_all_raw_passthrough_witness :
    api_logs_all_query "lux > 100" =
      "SELECT id, timestamp, dht22_air_temp as air_temp, dht22_humidity as air_humidity, ds18b20_soil_temp as soil_temp, soil_percent, lux, stable FROM logs" ++ " WHERE " ++ "lux > 100" ++ " ORDER BY id ASC" ∧
    get_logs_where_query "lux > 100" =
      "SELECT * FROM logs" ++ " WHERE " ++ "lux > 100" ++ " ORDER BY id ASC" :=
  api_logs_all_raw_passthrough "lux > 100" (by decide)

/-- C7: a second `start()` while the supervised process is still alive
returns false with "Process already running." and leaves the held process
untouched (the concurrent start is rejected, not queued); `stop()` with
nothing running returns false with the "not running" reason and, being a
total function of the supervisor state, never throws. -/
theorem process_manager_reject_concurrent_start_and_safe_stop :
    (∀ p : SubProc, p.alive = true → ∀ spawn,
        (ProcessManager.start (some p) spawn).1 = (false, "Process already running.") ∧
        (ProcessManager.start (some p) spawn).2 = some p) ∧
    (ProcessManager.stop none).1 = (false, "Process not running.") ∧
    (ProcessManager.stop none).2 = none := by
  refine ⟨?_, rfl, rfl⟩
  intro p hp spawn
  constructor <;> simp [ProcessManager.start, ProcessManager.is_running, hp]

/-- C7 witness: the rejection statement applied to a concrete alive
process. -/
theorem process_manager_reject_concurrent_start_witness :
    (ProcessManager.start (some ⟨7, true⟩) (.err "boom")).1 =
        (false, "Process already running.") ∧
    (ProcessManager.start (some ⟨7, true⟩) (.err "boom")).2 = some ⟨7, true⟩ :=
  process_manager_reject_concurrent_start_and_safe_stop.1 ⟨7, true⟩ rfl (.err "boom")

/-- C8: `start()` spawns, waits the grace interval, and re-checks
liveness: a spawned process that has already exited at the re-check makes
`start()` return failure ("Process did not stay running.") rather than a
false success; a process still alive yields success, and a failed spawn
reports the error. -/
theorem process_manager_start_verifies_liveness :
    (∀ pid, ProcessManager.start none (.ok ⟨pid, false⟩) =
        ((false, "Process did not stay running."), none)) ∧
    (∀ pid, ProcessManager.start none (.ok ⟨pid, true⟩) =
        ((true, "Started (PID: " ++ toString pid ++ ")."), some ⟨pid, true⟩)) ∧
    (∀ msg, ProcessManager.start none (.err msg) =
        ((false, "Failed to start process: " ++ msg), none)) :=
  ⟨fun _ => rfl, fun _ => rfl, fun _ => rfl⟩

/-- C9: loading the calibration profile is a total function that returns
the default pair `(1.60, 0.20)` on every failure mode of the file —
missing, unparsable, a missing key, or a value `float()` rejects — and
returns the stored values for a well-formed file with both keys. -/
theorem load_voltage_calibration_defaults_and_values :
    load_voltage_calibration .missing = (8/5, 1/5) ∧
    load_voltage_calibration .unparsable = (8/5, 1/5) ∧
    (∀ w l, load_voltage_calibration (.parsed none w l) = (8/5, 1/5)) ∧
    (∀ d l, load_voltage_calibration (.parsed d none l) = (8/5, 1/5)) ∧
    (∀ w l, load_voltage_calibration (.parsed (some none) w l) = (8/5, 1/5)) ∧
    (∀ d l, load_voltage_calibration (.parsed d (some none) l) = (8/5, 1/5)) ∧
    (∀ x y l, load_voltage_calibration (.parsed (some (some x)) (some (some y)) l) = (x, y)) := by
  refine ⟨rfl, rfl, ?_, ?_, ?_, ?_, fun x y l => rfl⟩
  · intro w l
    rcases w with _ | (_ | x) <;> rfl
  · intro d l
    rcases d with _ | (_ | x) <;> rfl
  · intro w l
    rcases w with _ | (_ | x) <;> rfl
  · intro d l
    rcases d with _ | (_ | x) <;> rfl

/-- C10 counterexample: `run_logging_cycle` rounds the air temperature
with `round(x, 3)`, not to 2 decimal places: at 12.344 the persisted
value keeps all 3 decimals and differs from the 2-decimal rounding
12.34 required by the claim. -/
theorem round_sensor_values_not_two_decimals :
    (round_sensor_values ⟨some (1543/125), none, none, none, none⟩).temperature
        = some (1543/125) ∧
    Option.map round2_spec (some ((1543:ℚ)/125)) = some ((617:ℚ)/50) ∧
    ¬((some ((1543:ℚ)/125) : Option ℚ) = some ((617:ℚ)/50)) := by
  have h3 : round3 (1543/125) = 1543/125 := by
    have h := round3_grid 12344
    norm_num at h
    exact h
  refine ⟨?_, ?_, by norm_num⟩
  · show some (round3 (1543/125)) = some (1543/125)
    rw [h3]
  · norm_num [round2_spec, roundHalfEven]

/-- C10 amended: before persistence every present sensor field — air
temperature, humidity, soil temperature, soil voltage and soil percent —
is rounded to 3 decimal places (a multiple of 1/1000 within 1/2000 of the
raw value), and every absent field is persisted as absent. -/
theorem round_sensor_values_three_decimals (v : SensorValues) :
    IsRound3 (round_sensor_values v).temperature v.temperature ∧
    IsRound3 (round_sensor_values v).humidity v.humidity ∧
    IsRound3 (round_sensor_values v).soil_temperature v.soil_temperature ∧
    IsRound3 (round_sensor_values v).soil_voltage v.soil_voltage ∧
    IsRound3 (round_sensor_values v).soil_percent v.soil_percent :=
  ⟨isRound3_map _, isRound3_map _, isRound3_map _, isRound3_map _, isRound3_map _⟩

/-- C10 amended witness: the rounding characterization applied to a
concrete reading. -/
theorem round_sensor_values_three_decimals_witness :
    ∃ n : ℤ, (round_sensor_values ⟨some (1/3), none, none, none, none⟩).temperature
        = some ((n : ℚ) / 1000) ∧ |(n : ℚ) / 1000 - 1/3| ≤ 1/2000 :=
  (round_sensor_values_three_decimals ⟨some (1/3), none, none, none, none⟩).1.2 (1/3) rfl

end Chilli
